import Mathlib

/-!
# api-controller: the bearer-auth middleware and the listener lifecycle

A shallow embedding of `src/api.go` (package `apicontroller`).

* Go strings are Lean strings; `error` is `Option String` (`none` is `nil`,
  `some m` an error whose `Error()` is `m`).
* One request's `http.ResponseWriter` is the explicit state `ResponseWriter`
  (header map and status line); a handler is a state transformer that also
  reports the tokens it passed to the authentication callback and whether it
  panicked.
* The pieces of `net/http`, `gorilla/mux` and `strings` that `api.go` calls are
  modelled next to the code that calls them.
-/

set_option autoImplicit false

namespace strings

/-- The pieces of `s` between the occurrences of the character `sep`, on lists
of characters. There is always at least one piece. -/
def splitChars (sep : Char) : List Char → List (List Char)
  | [] => [[]]
  | c :: cs =>
    if c = sep then [] :: splitChars sep cs
    else
      match splitChars sep cs with
      | [] => [[c]]
      | p :: ps => (c :: p) :: ps

/-- Go `strings.Split(s, sep)` for a separator of one character, which is how
`api.go` calls it (`sep` is `" "`): `s` is cut at every occurrence of `sep`. -/
def Split (s : String) (sep : Char) : List String :=
  (splitChars sep s.data).map String.mk

end strings

namespace http

/-- Go `http.Header`, a `map[string][]string`: a key that is absent maps to the
empty slice. Keys are compared as written; `api.go` spells each key one way
only, so the canonical spelling `net/http` stores them under is not visible. -/
structure Header where
  vals : String → List String

namespace Header

/-- An empty header map. -/
def empty : Header := ⟨fun _ => []⟩

/-- Go `Header.Get`: the first value stored under `key`, or `""`. -/
def Get (h : Header) (key : String) : String :=
  match h.vals key with
  | [] => ""
  | v :: _ => v

/-- Go `Header.Set`: `key` holds the single value `value`. -/
def Set (h : Header) (key value : String) : Header :=
  ⟨fun k => if k = key then [value] else h.vals k⟩

/-- Go `Header.Add`: `value` is appended to the values of `key`. -/
def Add (h : Header) (key value : String) : Header :=
  ⟨fun k => if k = key then h.vals k ++ [value] else h.vals k⟩

end Header

/-- The part of `*http.Request` the code reads: the request headers. -/
structure Request where
  Header : Header

/-- The state behind one `http.ResponseWriter`: the response header map and
the status code written by `WriteHeader`, if any. -/
structure ResponseWriter where
  header : Header
  status : Option Nat

namespace ResponseWriter

/-- A response nothing has been written to. -/
def fresh : ResponseWriter := ⟨Header.empty, none⟩

/-- Go `w.WriteHeader(code)`: the first call fixes the status line, a later
call is superfluous and leaves it. -/
def WriteHeader (w : ResponseWriter) (code : Nat) : ResponseWriter :=
  match w.status with
  | none => { w with status := some code }
  | some _ => w

end ResponseWriter

/-- Go `http.StatusBadRequest`. -/
def StatusBadRequest : Nat := 400

/-- Go `http.StatusInternalServerError`. -/
def StatusInternalServerError : Nat := 500

/-- What one call of `ServeHTTP(w, r)` did: the tokens handed to the
authentication callback (in order), the state `w` was left in, and the panic
message if the call panicked. -/
structure Served where
  authCalls : List String
  w : ResponseWriter
  fault : Option String

/-- Go `http.Handler`: `ServeHTTP(w, r)`. -/
abbrev Handler := ResponseWriter → Request → Served

/-- Go `http.Server`, as far as `api.go` fills it in: the address. Its
`Handler` is always the controller's own router. -/
structure Server where
  Addr : String
deriving DecidableEq

end http

namespace apicontroller

open http

/-- Go `HTTPHandler`, the handler called when a path is accessed. -/
abbrev HTTPHandler := Handler

/-- Go `AuthCallback`: `func(token string) (id string, err error)`. -/
abbrev AuthCallback := String → String × Option String

/-- A `mux.MiddlewareFunc` held by the router: either the method value
`c.defaultAuthMiddleware`, which is bound to the controller and reads its
fields when a request arrives, or a function supplied by the caller. -/
inductive MiddlewareFunc where
  | defaultAuthMiddleware
  | func (h : Handler → Handler)

/-- A route of the `mux.Router`: path, handler, methods. -/
structure Route where
  path : String
  fn : HTTPHandler
  methods : List String

/-- The `mux.Router`, as far as `api.go` uses it: the routes registered with
`HandleFunc(...).Methods(...)` and the middlewares registered with `Use`. -/
structure Router where
  routes : List Route
  middlewares : List MiddlewareFunc

/-- Go `mux.NewRouter()`. -/
def NewRouter : Router := ⟨[], []⟩

/-- Go `router.Use(h...)`: the middlewares are appended to the chain. -/
def Router.Use (r : Router) (h : List MiddlewareFunc) : Router :=
  { r with middlewares := r.middlewares ++ h }

/-- Go `Controller`. `server` is `none` for Go's `nil`, `AuthCallback` too. -/
structure Controller where
  router : Router
  server : Option Server
  useDefaultMiddleware : Bool
  AuthCallback : Option AuthCallback

/-- Go `NewController`. -/
def NewController : Controller :=
  { router := NewRouter, server := none, useDefaultMiddleware := true, AuthCallback := none }

/-- Go `Controller.AddHandler`. -/
def Controller.AddHandler (c : Controller) (path : String) (fn : HTTPHandler)
    (methods : List String) : Controller :=
  { c with router := { c.router with routes := c.router.routes ++ [⟨path, fn, methods⟩] } }

/-- Go `Controller.Run`. `listenErr` is what `c.server.ListenAndServe()` returns
when it stops blocking. The result is everything the caller of `Run` can see
afterwards: the controller and the lines written with `log.Println` (`Run` has
no return value). -/
def Controller.Run (c : Controller) (addr : String) (listenErr : Option String) :
    Controller × List String :=
  let c := if c.useDefaultMiddleware then
      { c with router := c.router.Use [MiddlewareFunc.defaultAuthMiddleware] }
    else c
  let c := { c with server := some ⟨addr⟩ }
  let out := ["Running at http://" ++ addr]
  match listenErr with
  | some _ => (c, out)
  | none => (c, out)

/-- Go `Controller.Stop`. `shutdownErr` is what `c.server.Shutdown(ctx)` returns;
the code drops it. -/
def Controller.Stop (c : Controller) (shutdownErr : Option String) : Controller :=
  match c.server with
  | none => c
  | some _ =>
    let _ := shutdownErr
    { c with server := none }

/-- Go `Controller.setMiddleware`. -/
def Controller.setMiddleware (c : Controller) (h : List MiddlewareFunc) : Controller :=
  let c := { c with useDefaultMiddleware := false }
  { c with router := c.router.Use h }

/-- Go `Controller.defaultAuthMiddleware`: the handler it returns for `next`. -/
def Controller.defaultAuthMiddleware (c : Controller) (next : Handler) : Handler :=
  fun w r =>
    match c.AuthCallback with
    | none => next w r
    | some fn =>
      let w := { w with header := w.header.Set "X-ID" "" }
      let header := r.Header.Get "Authorization"
      let parts := strings.Split header ' '
      match parts with
      | [] => ⟨[], w, some "index out of range [0] with length 0"⟩
      | p0 :: rest =>
        if p0 ≠ "Bearer" then
          let w := { w with header := w.header.Add "X-Error" "Only Authorization: Bearer Allowed" }
          let w := w.WriteHeader StatusBadRequest
          ⟨[], w, none⟩
        else
          match rest with
          | [] => ⟨[], w, some "index out of range [1] with length 1"⟩
          | token :: _ =>
            match fn token with
            | (_, some err) =>
              let w := { w with header := w.header.Add "X-Error" err }
              let w := w.WriteHeader StatusInternalServerError
              ⟨[token], w, none⟩
            | (id, none) =>
              let w := { w with header := w.header.Set "X-ID" id }
              let res := next w r
              ⟨token :: res.authCalls, res.w, res.fault⟩

/-- The function a registered middleware stands for on controller `c`. -/
def MiddlewareFunc.Middleware (c : Controller) : MiddlewareFunc → Handler → Handler
  | .defaultAuthMiddleware => c.defaultAuthMiddleware
  | .func h => h

/-- How the `mux.Router` serves a matched route: the handler is wrapped by the
middlewares from the last registered to the first, so the first registered
runs first. -/
def Controller.chain (c : Controller) (handler : Handler) : Handler :=
  c.router.middlewares.foldr (fun m h => m.Middleware c h) handler

/-- A fresh controller after the caller assigned `c.AuthCallback = fn`. -/
def withAuthCallback (fn : AuthCallback) : Controller :=
  { NewController with AuthCallback := some fn }

/-- A callback that knows the token `abc123` as `user-1` and no other. -/
def sampleCallback : AuthCallback :=
  fun token => if token = "abc123" then ("user-1", none) else ("", some "unknown token")

/-- A callback that fails on every token with an error whose message is `msg`. -/
def failingCallback (msg : String) : AuthCallback :=
  fun _ => ("", some msg)

/-- A callback that knows the token `tok` as `id` and no other. -/
def acceptOnly (tok id : String) : AuthCallback :=
  fun token => if token = tok then (id, none) else ("", some "unknown token")

/-- A callback that fails on the token `tok` alone and knows every other token
as `id`. -/
def rejectOnly (tok id : String) : AuthCallback :=
  fun token => if token = tok then ("", some "revoked token") else (id, none)

/-- A callback that accepts every token and returns it as the identity. -/
def echoCallback : AuthCallback :=
  fun token => (token, none)

/-- A request whose only header is `Authorization: value`. -/
def requestWithAuthorization (value : String) : Request :=
  ⟨Header.empty.Set "Authorization" value⟩

/-- A request with no headers at all. -/
def requestWithoutHeaders : Request := ⟨Header.empty⟩

/-- A downstream handler that writes status 200 and nothing else. -/
def okHandler : Handler := fun w _ => ⟨[], w.WriteHeader 200, none⟩

/-- The scheme token of an Authorization header in the words of the
specification: the part before the first space (the whole header when it has no
space). -/
def schemeToken (header : String) : String :=
  ⟨header.data.takeWhile (· != ' ')⟩

/-- The remainder of an Authorization header in the words of the specification:
everything after the first space (empty when the header has no space). -/
def afterFirstSpace (header : String) : String :=
  ⟨(header.data.dropWhile (· != ' ')).drop 1⟩

/-- The text between the first space of a header and its next space (or its
end). -/
def secondField (header : String) : String :=
  schemeToken (afterFirstSpace header)

end apicontroller


/-! ## The pieces `strings.Split` returns -/

namespace strings

theorem splitChars_eq (sep : Char) (l : List Char) :
    splitChars sep l = l.takeWhile (· != sep) ::
      (match l.dropWhile (· != sep) with
        | [] => []
        | _ :: tl => splitChars sep tl) := by
  induction l with
  | nil => simp [splitChars]
  | cons c cs ih =>
    by_cases h : c = sep
    · subst h
      simp [splitChars, List.takeWhile_cons, List.dropWhile_cons]
    · have hb : (c != sep) = true := by simp [h]
      rw [splitChars, if_neg h, ih]
      simp [List.takeWhile_cons, List.dropWhile_cons, hb]

theorem dropWhile_of_mem (sep : Char) (l : List Char) (h : sep ∈ l) :
    l.dropWhile (· != sep) = sep :: (l.dropWhile (· != sep)).drop 1 := by
  induction l with
  | nil => simp at h
  | cons c cs ih =>
    by_cases hc : c = sep
    · subst hc
      simp [List.dropWhile_cons]
    · have hb : (c != sep) = true := by simp [hc]
      have hcs : sep ∈ cs := by
        rcases List.mem_cons.1 h with h1 | h1
        · exact absurd h1.symm hc
        · exact h1
      simpa [List.dropWhile_cons, hb] using ih hcs

theorem Split_eq (s : String) (sep : Char) :
    Split s sep = String.mk (s.data.takeWhile (· != sep)) ::
      (match s.data.dropWhile (· != sep) with
        | [] => []
        | _ :: tl => Split ⟨tl⟩ sep) := by
  unfold Split
  rw [splitChars_eq]
  cases s.data.dropWhile (· != sep) <;> simp

end strings

namespace apicontroller

open http

theorem Split_head (header : String) :
    ∃ rest, strings.Split header ' ' = schemeToken header :: rest := by
  rw [strings.Split_eq]
  exact ⟨_, rfl⟩

theorem Split_of_space (header : String) (h : ' ' ∈ header.data) :
    ∃ rest, strings.Split header ' ' = schemeToken header :: secondField header :: rest := by
  rw [strings.Split_eq, strings.dropWhile_of_mem ' ' header.data h]
  simp only []
  rw [strings.Split_eq]
  exact ⟨_, rfl⟩

theorem Split_no_space (header : String) (h : ' ' ∉ header.data) :
    strings.Split header ' ' = [schemeToken header] := by
  have hd : header.data.dropWhile (· != ' ') = [] := by
    rw [List.dropWhile_eq_nil_iff]
    intro x hx
    have : x ≠ ' ' := fun hxs => h (hxs ▸ hx)
    simp [this]
  rw [strings.Split_eq, hd]
  rfl

theorem Header_Set_Set (h : Header) (key a b : String) :
    (h.Set key a).Set key b = h.Set key b := by
  simp only [Header.Set, Header.mk.injEq]
  funext k
  by_cases hk : k = key <;> simp [hk]

/-- The success path of the middleware, as an equation: the token is handed to
the callback, X-ID is set, and the downstream handler runs once. -/
theorem forward_eq (c : Controller) (fn : AuthCallback) (next : Handler)
    (w : ResponseWriter) (r : Request) (id : String)
    (hcb : c.AuthCallback = some fn)
    (hscheme : schemeToken (r.Header.Get "Authorization") = "Bearer")
    (hspace : ' ' ∈ (r.Header.Get "Authorization").data)
    (hok : fn (secondField (r.Header.Get "Authorization")) = (id, none)) :
    c.defaultAuthMiddleware next w r =
      ⟨secondField (r.Header.Get "Authorization") ::
          (next ⟨w.header.Set "X-ID" id, w.status⟩ r).authCalls,
        (next ⟨w.header.Set "X-ID" id, w.status⟩ r).w,
        (next ⟨w.header.Set "X-ID" id, w.status⟩ r).fault⟩ := by
  obtain ⟨rest, hsplit⟩ := Split_of_space (r.Header.Get "Authorization") hspace
  simp only [Controller.defaultAuthMiddleware, hcb, hsplit, hscheme, hok]
  simp [Header_Set_Set]

/-! ## The bearer-auth middleware, request by request -/

/-- C4: with no authentication callback configured, the middleware does
nothing but call the downstream handler, once, with the response and the
request it received: whatever the Authorization header, it writes no status
and touches neither X-Error nor X-ID, and invokes no callback of its own. -/
theorem defaultAuthMiddleware_no_callback (c : Controller) (hcb : c.AuthCallback = none)
    (next : Handler) (w : ResponseWriter) (r : Request) :
    c.defaultAuthMiddleware next w r = next w r := by
  simp [Controller.defaultAuthMiddleware, hcb]

/-- A new controller has no callback: a `Basic xyz` request reaches the downstream handler, which
writes its 200. -/
theorem defaultAuthMiddleware_no_callback_witness :
    (NewController.defaultAuthMiddleware okHandler ResponseWriter.fresh
        (requestWithAuthorization "Basic xyz")).w.status = some 200 := by
  rw [defaultAuthMiddleware_no_callback NewController rfl]
  rfl

/-- C2: with a callback configured and an Authorization header whose part
before the first space is not `Bearer` (an absent header reads as the empty
string), the middleware answers by itself whatever the downstream handler is:
it appends the fixed, non-empty message to X-Error, writes status 400 on a
response whose status was not written yet, hands no token to the callback and
never calls the downstream handler. -/
theorem defaultAuthMiddleware_wrong_scheme (c : Controller) (fn : AuthCallback)
    (w : ResponseWriter) (r : Request)
    (hcb : c.AuthCallback = some fn)
    (hscheme : schemeToken (r.Header.Get "Authorization") ≠ "Bearer")
    (hstatus : w.status = none) :
    (∀ next : Handler, c.defaultAuthMiddleware next w r =
      ⟨[], ⟨(w.header.Set "X-ID" "").Add "X-Error" "Only Authorization: Bearer Allowed",
        some 400⟩, none⟩) ∧
    ((w.header.Set "X-ID" "").Add "X-Error" "Only Authorization: Bearer Allowed").vals "X-Error"
      = w.header.vals "X-Error" ++ ["Only Authorization: Bearer Allowed"] ∧
    "Only Authorization: Bearer Allowed" ≠ "" := by
  obtain ⟨rest, hsplit⟩ := Split_head (r.Header.Get "Authorization")
  refine ⟨fun next => ?_, ?_, by decide⟩
  · simp only [Controller.defaultAuthMiddleware, hcb, hsplit]
    rw [if_pos hscheme]
    simp [ResponseWriter.WriteHeader, hstatus, StatusBadRequest]
  · simp [Header.Add, Header.Set]

/-- A request with no headers and a `Basic xyz` request are both answered 400. -/
theorem defaultAuthMiddleware_wrong_scheme_witness :
    (((withAuthCallback sampleCallback).defaultAuthMiddleware okHandler ResponseWriter.fresh
          requestWithoutHeaders).w.status = some 400) ∧
    (((withAuthCallback sampleCallback).defaultAuthMiddleware okHandler ResponseWriter.fresh
          (requestWithAuthorization "Basic xyz")).w.status = some 400) := by
  constructor
  · rw [(defaultAuthMiddleware_wrong_scheme _ sampleCallback
      ResponseWriter.fresh requestWithoutHeaders rfl (by decide) rfl).1 okHandler]
  · rw [(defaultAuthMiddleware_wrong_scheme _ sampleCallback
      ResponseWriter.fresh (requestWithAuthorization "Basic xyz") rfl (by decide) rfl).1 okHandler]

/-- C1, as stated, fails: the header `Bearer a b` is `Bearer `, then the token
`a b`, and the callback returns `(user-1, nil)` for `a b`; the middleware hands
the callback `a` instead, gets an error, answers 500 with X-ID left empty and
does not call the downstream handler. -/
theorem defaultAuthMiddleware_success_not_for_spaced_token :
    "Bearer a b" = "Bearer " ++ "a b" ∧
    acceptOnly "a b" "user-1" "a b" = ("user-1", none) ∧
    ((withAuthCallback (acceptOnly "a b" "user-1")).defaultAuthMiddleware okHandler
        ResponseWriter.fresh (requestWithAuthorization "Bearer a b")).authCalls = ["a"] ∧
    ((withAuthCallback (acceptOnly "a b" "user-1")).defaultAuthMiddleware okHandler
        ResponseWriter.fresh (requestWithAuthorization "Bearer a b")).w.status = some 500 ∧
    ((withAuthCallback (acceptOnly "a b" "user-1")).defaultAuthMiddleware okHandler
        ResponseWriter.fresh (requestWithAuthorization "Bearer a b")).w.header.vals "X-ID"
      = [""] ∧
    ((withAuthCallback (acceptOnly "a b" "user-1")).defaultAuthMiddleware okHandler
        ResponseWriter.fresh (requestWithAuthorization "Bearer a b")).w.header.vals "X-Error"
      = ["unknown token"] := by
  refine ⟨?_, ?_, ?_, ?_, ?_, ?_⟩ <;> decide

/-- C1, amended: with a callback configured and an Authorization header that
reads `Bearer`, a space, then the token, where the token is the text up to the
next space or the end of the header, when the callback returns `(id, nil)` for
that token the middleware sets X-ID to `id`, writes no status and leaves
X-Error as it was, and calls the downstream handler once with the request it
received; the callback was handed that token. -/
theorem defaultAuthMiddleware_success (c : Controller) (fn : AuthCallback) (next : Handler)
    (w : ResponseWriter) (r : Request) (id : String)
    (hcb : c.AuthCallback = some fn)
    (hscheme : schemeToken (r.Header.Get "Authorization") = "Bearer")
    (hspace : ' ' ∈ (r.Header.Get "Authorization").data)
    (hok : fn (secondField (r.Header.Get "Authorization")) = (id, none)) :
    c.defaultAuthMiddleware next w r =
      ⟨secondField (r.Header.Get "Authorization") ::
          (next ⟨w.header.Set "X-ID" id, w.status⟩ r).authCalls,
        (next ⟨w.header.Set "X-ID" id, w.status⟩ r).w,
        (next ⟨w.header.Set "X-ID" id, w.status⟩ r).fault⟩ ∧
    (w.header.Set "X-ID" id).vals "X-ID" = [id] ∧
    (w.header.Set "X-ID" id).Get "X-ID" = id ∧
    (w.header.Set "X-ID" id).vals "X-Error" = w.header.vals "X-Error" := by
  refine ⟨forward_eq c fn next w r id hcb hscheme hspace hok, ?_, ?_, ?_⟩
  · simp [Header.Set]
  · simp [Header.Set, Header.Get]
  · simp [Header.Set]

/-- The header `Bearer abc123` with a callback that knows `abc123` as `user-1` gives X-ID `user-1`. -/
theorem defaultAuthMiddleware_success_witness :
    ((withAuthCallback sampleCallback).defaultAuthMiddleware okHandler ResponseWriter.fresh
          (requestWithAuthorization "Bearer abc123")).w.header.Get "X-ID" = "user-1" := by
  rw [(defaultAuthMiddleware_success _ sampleCallback
    okHandler ResponseWriter.fresh (requestWithAuthorization "Bearer abc123") "user-1"
    rfl (by decide) (by decide) (by decide)).1]
  decide

/-- C3, as stated, fails twice over. A callback whose error has an empty
message (Go `errors.New("")`) makes the middleware answer 500 with an X-Error
header whose value is the empty string. And for the header `Bearer a b`, whose
token after `Bearer ` is `a b`, a callback that returns an error for `a b` but
knows `a` is handed `a`: the request is forwarded with X-ID `user-1` and the
downstream handler writes its 200. -/
theorem defaultAuthMiddleware_error_not_as_stated :
    (failingCallback "" "bad-token" = ("", some "") ∧
      ((withAuthCallback (failingCallback "")).defaultAuthMiddleware okHandler
          ResponseWriter.fresh (requestWithAuthorization "Bearer bad-token")).w.status
        = some 500 ∧
      ((withAuthCallback (failingCallback "")).defaultAuthMiddleware okHandler
          ResponseWriter.fresh
          (requestWithAuthorization "Bearer bad-token")).w.header.vals "X-Error" = [""] ∧
      ((withAuthCallback (failingCallback "")).defaultAuthMiddleware okHandler
          ResponseWriter.fresh
          (requestWithAuthorization "Bearer bad-token")).w.header.Get "X-Error" = "") ∧
    ("Bearer a b" = "Bearer " ++ "a b" ∧
      rejectOnly "a b" "user-1" "a b" = ("", some "revoked token") ∧
      ((withAuthCallback (rejectOnly "a b" "user-1")).defaultAuthMiddleware okHandler
          ResponseWriter.fresh (requestWithAuthorization "Bearer a b")).authCalls = ["a"] ∧
      ((withAuthCallback (rejectOnly "a b" "user-1")).defaultAuthMiddleware okHandler
          ResponseWriter.fresh (requestWithAuthorization "Bearer a b")).w.status = some 200 ∧
      ((withAuthCallback (rejectOnly "a b" "user-1")).defaultAuthMiddleware okHandler
          ResponseWriter.fresh (requestWithAuthorization "Bearer a b")).w.header.vals "X-ID"
        = ["user-1"] ∧
      ((withAuthCallback (rejectOnly "a b" "user-1")).defaultAuthMiddleware okHandler
          ResponseWriter.fresh (requestWithAuthorization "Bearer a b")).w.header.vals "X-Error"
        = []) := by
  refine ⟨⟨?_, ?_, ?_, ?_⟩, ⟨?_, ?_, ?_, ?_, ?_, ?_⟩⟩ <;> decide

/-- C3, amended: with a callback configured and an Authorization header that
reads `Bearer`, a space, then the token, where the token is the text up to the
next space or the end of the header, when the callback returns an error for
that token the middleware answers by itself whatever the downstream handler is:
status 500 on a response whose status was not written yet, the error message
appended to X-Error (so X-Error is non-empty when the message is), X-ID left at
the empty default whatever identity came with the error, and the downstream
handler is never called. -/
theorem defaultAuthMiddleware_callback_error (c : Controller) (fn : AuthCallback)
    (w : ResponseWriter) (r : Request) (id err : String)
    (hcb : c.AuthCallback = some fn)
    (hscheme : schemeToken (r.Header.Get "Authorization") = "Bearer")
    (hspace : ' ' ∈ (r.Header.Get "Authorization").data)
    (herr : fn (secondField (r.Header.Get "Authorization")) = (id, some err))
    (hstatus : w.status = none) :
    (∀ next : Handler, c.defaultAuthMiddleware next w r =
      ⟨[secondField (r.Header.Get "Authorization")],
        ⟨(w.header.Set "X-ID" "").Add "X-Error" err, some 500⟩, none⟩) ∧
    ((w.header.Set "X-ID" "").Add "X-Error" err).vals "X-Error"
      = w.header.vals "X-Error" ++ [err] ∧
    ((w.header.Set "X-ID" "").Add "X-Error" err).vals "X-ID" = [""] := by
  obtain ⟨rest, hsplit⟩ := Split_of_space (r.Header.Get "Authorization") hspace
  refine ⟨fun next => ?_, ?_, ?_⟩
  · simp only [Controller.defaultAuthMiddleware, hcb, hsplit, hscheme, herr]
    simp [ResponseWriter.WriteHeader, hstatus, StatusInternalServerError]
  · simp [Header.Add, Header.Set]
  · simp [Header.Add, Header.Set]

/-- The header `Bearer bad-token` with a callback that fails is answered 500. -/
theorem defaultAuthMiddleware_callback_error_witness :
    ((withAuthCallback (failingCallback "invalid token")).defaultAuthMiddleware okHandler ResponseWriter.fresh
          (requestWithAuthorization "Bearer bad-token")).w.status = some 500 := by
  rw [(defaultAuthMiddleware_callback_error _ (failingCallback "invalid token")
    ResponseWriter.fresh (requestWithAuthorization "Bearer bad-token") "" "invalid token"
    rfl (by decide) (by decide) rfl rfl).1 okHandler]

/-- C5, the failing input: with a callback configured, the header `Bearer` with
nothing after it makes the middleware panic on `parts[1]`: no status is
written, the callback and the downstream handler are not called. -/
theorem defaultAuthMiddleware_bare_Bearer_panics (fn : AuthCallback) (next : Handler)
    (w : ResponseWriter) :
    (withAuthCallback fn).defaultAuthMiddleware next w
        (requestWithAuthorization "Bearer") =
      ⟨[], ⟨w.header.Set "X-ID" "", w.status⟩, some "index out of range [1] with length 1"⟩ := by
  have hsplit : strings.Split ((requestWithAuthorization "Bearer").Header.Get "Authorization") ' '
      = ["Bearer"] := by decide
  have hcb : (withAuthCallback fn).AuthCallback = some fn := rfl
  simp only [Controller.defaultAuthMiddleware, hcb, hsplit]
  simp

/-- C6, as stated, fails: for the header `Bearer a b` the callback is handed
`a`, not the remainder `a b` after the first space. -/
theorem defaultAuthMiddleware_token_not_remainder :
    schemeToken "Bearer a b" = "Bearer" ∧
    afterFirstSpace "Bearer a b" = "a b" ∧
    ((withAuthCallback echoCallback).defaultAuthMiddleware okHandler ResponseWriter.fresh
          (requestWithAuthorization "Bearer a b")).authCalls = ["a"] := by
  refine ⟨?_, ?_, ?_⟩ <;> decide

/-- C6, amended: for every Authorization header whose part before the first
space is `Bearer` and which has a space, the header is cut at every space and
the token handed to the callback is the text between the first space and the
next one (or the end of the header). -/
theorem defaultAuthMiddleware_token_second_field (c : Controller) (fn : AuthCallback)
    (next : Handler) (w : ResponseWriter) (r : Request)
    (hcb : c.AuthCallback = some fn)
    (hscheme : schemeToken (r.Header.Get "Authorization") = "Bearer")
    (hspace : ' ' ∈ (r.Header.Get "Authorization").data) :
    (c.defaultAuthMiddleware next w r).authCalls.head? =
      some (secondField (r.Header.Get "Authorization")) ∧
    secondField (r.Header.Get "Authorization") =
      ⟨(afterFirstSpace (r.Header.Get "Authorization")).data.takeWhile (· != ' ')⟩ := by
  obtain ⟨rest, hsplit⟩ := Split_of_space (r.Header.Get "Authorization") hspace
  refine ⟨?_, rfl⟩
  simp only [Controller.defaultAuthMiddleware, hcb, hsplit, hscheme]
  rcases hfn : fn (secondField (r.Header.Get "Authorization")) with ⟨id, _ | err⟩ <;> simp

/-- The header `Bearer a b` hands `a` to the callback. -/
theorem defaultAuthMiddleware_token_second_field_witness :
    ((withAuthCallback echoCallback).defaultAuthMiddleware okHandler ResponseWriter.fresh
          (requestWithAuthorization "Bearer a b")).authCalls.head? = some "a" :=
  (defaultAuthMiddleware_token_second_field _ echoCallback okHandler
    ResponseWriter.fresh (requestWithAuthorization "Bearer a b") rfl (by decide) (by decide)).1

/-- A middleware result that does not depend on the downstream handler is the
same through one copy and through two stacked copies. -/
theorem stacked_of_const (c : Controller) (next : Handler) (w : ResponseWriter) (r : Request)
    (h : ∀ n1 n2 : Handler, c.defaultAuthMiddleware n1 w r = c.defaultAuthMiddleware n2 w r) :
    c.defaultAuthMiddleware (c.defaultAuthMiddleware next) w r =
      c.defaultAuthMiddleware next w r :=
  h _ _

/-- Off the success path the middleware either has no callback or answers
without looking at the downstream handler. -/
theorem defaultAuthMiddleware_const (c : Controller) (fn : AuthCallback) (w : ResponseWriter)
    (r : Request) (hcb : c.AuthCallback = some fn)
    (hno : ¬ (schemeToken (r.Header.Get "Authorization") = "Bearer" ∧
      ' ' ∈ (r.Header.Get "Authorization").data ∧
      (fn (secondField (r.Header.Get "Authorization"))).2 = none))
    (n1 n2 : Handler) :
    c.defaultAuthMiddleware n1 w r = c.defaultAuthMiddleware n2 w r := by
  by_cases hscheme : schemeToken (r.Header.Get "Authorization") = "Bearer"
  · by_cases hspace : ' ' ∈ (r.Header.Get "Authorization").data
    · obtain ⟨rest, hsplit⟩ := Split_of_space (r.Header.Get "Authorization") hspace
      rcases hfn : fn (secondField (r.Header.Get "Authorization")) with ⟨id, _ | err⟩
      · exact absurd ⟨hscheme, hspace, by rw [hfn]⟩ hno
      · simp only [Controller.defaultAuthMiddleware, hcb, hsplit, hscheme, hfn]
    · simp only [Controller.defaultAuthMiddleware, hcb, Split_no_space _ hspace, hscheme]
  · obtain ⟨rest, hsplit⟩ := Split_head (r.Header.Get "Authorization")
    simp only [Controller.defaultAuthMiddleware, hcb, hsplit]
    rw [if_pos hscheme, if_pos hscheme]

/-! ## Listener lifecycle and the middleware chain -/

/-- C7: `Stop` leaves the controller with no server, and with the router (routes
and middlewares), the default-middleware flag and the callback as they were,
whatever `Shutdown` returned; on a controller with no server it changes
nothing; after `Run` then `Stop` there is no server, and the next `Run` stores a
new one for its own address. -/
theorem Stop_clears_listener_only :
    (∀ (c : Controller) (e : Option String),
      (c.Stop e).server = none ∧ (c.Stop e).router = c.router ∧
      (c.Stop e).useDefaultMiddleware = c.useDefaultMiddleware ∧
      (c.Stop e).AuthCallback = c.AuthCallback) ∧
    (∀ (router : Router) (flag : Bool) (cb : Option AuthCallback) (e : Option String),
      (Controller.mk router none flag cb).Stop e = Controller.mk router none flag cb) ∧
    (∀ (e : Option String), NewController.Stop e = NewController) ∧
    (∀ (c : Controller) (a1 a2 : String) (l1 l2 e : Option String),
      ((c.Run a1 l1).1.Stop e).server = none ∧
      (((c.Run a1 l1).1.Stop e).Run a2 l2).1.server = some ⟨a2⟩) := by
  refine ⟨fun c e => ?_, fun _ _ _ _ => rfl, fun _ => rfl, fun c a1 a2 l1 l2 e => ?_⟩
  · cases h : c.server <;> simp [Controller.Stop, h]
  · constructor
    · cases l1 <;> simp [Controller.Run, Controller.Stop]
    · cases l2 <;> simp [Controller.Run]

/-- C8, what the code does: the state `Run` leaves and the lines it logs are
the same whatever `ListenAndServe` returned, so a caller of `Run` cannot tell
a failed bind from a server that ran and was shut down. -/
theorem Run_discards_listen_error (c : Controller) (addr : String) (e1 e2 : Option String) :
    c.Run addr e1 = c.Run addr e2 := by
  cases e1 <;> cases e2 <;> rfl

/-- C9: `Run` appends `defaultAuthMiddleware` to the router's chain exactly when
the default-middleware flag is set, and nothing otherwise. A new controller has
the chain `[defaultAuthMiddleware]` after one `Run`, and every matched request
then goes through that middleware before its handler. After `setMiddleware hs`
on a new controller the flag is off and a following `Run` leaves the chain
equal to `hs`. -/
theorem Run_installs_default_middleware_iff_flag :
    (∀ (c : Controller) (addr : String) (l : Option String),
      (c.Run addr l).1.router.middlewares = c.router.middlewares ++
        (if c.useDefaultMiddleware then [MiddlewareFunc.defaultAuthMiddleware] else [])) ∧
    (∀ (addr : String) (l : Option String),
      (NewController.Run addr l).1.router.middlewares = [MiddlewareFunc.defaultAuthMiddleware] ∧
      ∀ handler : Handler, (NewController.Run addr l).1.chain handler =
        (NewController.Run addr l).1.defaultAuthMiddleware handler) ∧
    (∀ (hs : List MiddlewareFunc) (addr : String) (l : Option String),
      (NewController.setMiddleware hs).useDefaultMiddleware = false ∧
      ((NewController.setMiddleware hs).Run addr l).1.router.middlewares = hs ∧
      ((NewController.setMiddleware hs).Run addr l).1.useDefaultMiddleware = false) := by
  refine ⟨fun c addr l => ?_, fun addr l => ?_, fun hs addr l => ?_⟩
  · cases l <;> cases h : c.useDefaultMiddleware <;> simp [Controller.Run, Router.Use, h]
  · cases l <;>
      simp [Controller.Run, Router.Use, NewController, NewRouter, Controller.chain,
        MiddlewareFunc.Middleware]
  · cases l <;>
      simp [Controller.Run, Controller.setMiddleware, Router.Use, NewController, NewRouter]

/-- C10: every `Run` on a controller whose default-middleware flag is set
appends one more `defaultAuthMiddleware`, so a new controller has two copies
after `Run`, `Stop`, `Run`, and a chain of two copies serves a request through
the middleware applied to itself. Two stacked copies leave the response and the
panic state exactly as one copy does, for every header and every downstream
handler (which is reached with the same response and request, or not at all,
in both). On the success path the callback is handed the token twice instead
of once; off it nothing differs at all. -/
theorem stacked_defaultAuthMiddleware_idempotent :
    (∀ (router : Router) (server : Option Server) (cb : Option AuthCallback) (addr : String)
        (l : Option String),
      ((Controller.mk router server true cb).Run addr l).1.router.middlewares =
        router.middlewares ++ [MiddlewareFunc.defaultAuthMiddleware]) ∧
    (∀ (a1 a2 : String) (l1 l2 e : Option String),
      (((NewController.Run a1 l1).1.Stop e).Run a2 l2).1.router.middlewares =
        [MiddlewareFunc.defaultAuthMiddleware, MiddlewareFunc.defaultAuthMiddleware]) ∧
    (∀ (routes : List Route) (server : Option Server) (flag : Bool) (cb : Option AuthCallback)
        (next : Handler),
      (Controller.mk ⟨routes, [MiddlewareFunc.defaultAuthMiddleware,
          MiddlewareFunc.defaultAuthMiddleware]⟩ server flag cb).chain next =
        (Controller.mk ⟨routes, [MiddlewareFunc.defaultAuthMiddleware,
          MiddlewareFunc.defaultAuthMiddleware]⟩ server flag cb).defaultAuthMiddleware
          ((Controller.mk ⟨routes, [MiddlewareFunc.defaultAuthMiddleware,
            MiddlewareFunc.defaultAuthMiddleware]⟩ server flag cb).defaultAuthMiddleware next)) ∧
    (∀ (c : Controller) (next : Handler) (w : ResponseWriter) (r : Request),
      (c.defaultAuthMiddleware (c.defaultAuthMiddleware next) w r).w =
        (c.defaultAuthMiddleware next w r).w ∧
      (c.defaultAuthMiddleware (c.defaultAuthMiddleware next) w r).fault =
        (c.defaultAuthMiddleware next w r).fault) ∧
    (∀ (c : Controller) (fn : AuthCallback) (next : Handler) (w : ResponseWriter) (r : Request),
      c.AuthCallback = some fn →
      schemeToken (r.Header.Get "Authorization") = "Bearer" →
      ' ' ∈ (r.Header.Get "Authorization").data →
      (fn (secondField (r.Header.Get "Authorization"))).2 = none →
      (c.defaultAuthMiddleware (c.defaultAuthMiddleware next) w r).authCalls =
        secondField (r.Header.Get "Authorization") ::
          (c.defaultAuthMiddleware next w r).authCalls) ∧
    (∀ (c : Controller) (next : Handler) (w : ResponseWriter) (r : Request),
      (¬ ∃ fn, c.AuthCallback = some fn ∧
        schemeToken (r.Header.Get "Authorization") = "Bearer" ∧
        ' ' ∈ (r.Header.Get "Authorization").data ∧
        (fn (secondField (r.Header.Get "Authorization"))).2 = none) →
      c.defaultAuthMiddleware (c.defaultAuthMiddleware next) w r =
        c.defaultAuthMiddleware next w r) := by
  have hsucc : ∀ (c : Controller) (fn : AuthCallback) (next : Handler) (w : ResponseWriter)
      (r : Request), c.AuthCallback = some fn →
      schemeToken (r.Header.Get "Authorization") = "Bearer" →
      ' ' ∈ (r.Header.Get "Authorization").data →
      (fn (secondField (r.Header.Get "Authorization"))).2 = none →
      c.defaultAuthMiddleware (c.defaultAuthMiddleware next) w r =
        ⟨secondField (r.Header.Get "Authorization") ::
          (c.defaultAuthMiddleware next w r).authCalls,
          (c.defaultAuthMiddleware next w r).w, (c.defaultAuthMiddleware next w r).fault⟩ := by
    intro c fn next w r hcb hscheme hspace hok
    have hfn : fn (secondField (r.Header.Get "Authorization")) =
        ((fn (secondField (r.Header.Get "Authorization"))).1, none) := by
      rw [← hok]
    have h1 := fun n w0 => forward_eq c fn n w0 r _ hcb hscheme hspace hfn
    rw [h1 (c.defaultAuthMiddleware next) w, h1 next _, h1 next w]
    simp [Header_Set_Set]
  have hoff : ∀ (c : Controller) (next : Handler) (w : ResponseWriter) (r : Request),
      (¬ ∃ fn, c.AuthCallback = some fn ∧
        schemeToken (r.Header.Get "Authorization") = "Bearer" ∧
        ' ' ∈ (r.Header.Get "Authorization").data ∧
        (fn (secondField (r.Header.Get "Authorization"))).2 = none) →
      c.defaultAuthMiddleware (c.defaultAuthMiddleware next) w r =
        c.defaultAuthMiddleware next w r := by
    intro c next w r hno
    cases hcb : c.AuthCallback with
    | none => simp [Controller.defaultAuthMiddleware, hcb]
    | some fn =>
      exact stacked_of_const c next w r
        (defaultAuthMiddleware_const c fn w r hcb (fun h => hno ⟨fn, hcb, h⟩))
  refine ⟨fun router server cb addr l => ?_, fun a1 a2 l1 l2 e => ?_,
    fun routes server flag cb next => rfl, fun c next w r => ?_,
    fun c fn next w r hcb hscheme hspace hok => ?_, hoff⟩
  · cases l <;> simp [Controller.Run, Router.Use]
  · cases l1 <;> cases l2 <;>
      simp [Controller.Run, Controller.Stop, Router.Use, NewController, NewRouter]
  · by_cases hs : ∃ fn, c.AuthCallback = some fn ∧
        schemeToken (r.Header.Get "Authorization") = "Bearer" ∧
        ' ' ∈ (r.Header.Get "Authorization").data ∧
        (fn (secondField (r.Header.Get "Authorization"))).2 = none
    · obtain ⟨fn, hcb, hscheme, hspace, hok⟩ := hs
      rw [hsucc c fn next w r hcb hscheme hspace hok]
      exact ⟨rfl, rfl⟩
    · rw [hoff c next w r hs]
      exact ⟨rfl, rfl⟩
  · rw [hsucc c fn next w r hcb hscheme hspace hok]

/-- Two stacked copies hand `abc123` to the callback twice and answer `Basic xyz` as one copy does. -/
theorem stacked_defaultAuthMiddleware_idempotent_witness :
    ((withAuthCallback sampleCallback).defaultAuthMiddleware
      ((withAuthCallback sampleCallback).defaultAuthMiddleware okHandler) ResponseWriter.fresh
        (requestWithAuthorization "Bearer abc123")).authCalls = ["abc123", "abc123"] ∧
    (withAuthCallback sampleCallback).defaultAuthMiddleware
      ((withAuthCallback sampleCallback).defaultAuthMiddleware okHandler) ResponseWriter.fresh
        (requestWithAuthorization "Basic xyz") =
      (withAuthCallback sampleCallback).defaultAuthMiddleware okHandler ResponseWriter.fresh
        (requestWithAuthorization "Basic xyz") := by
  constructor
  · rw [stacked_defaultAuthMiddleware_idempotent.2.2.2.2.1 (withAuthCallback sampleCallback)
      sampleCallback okHandler ResponseWriter.fresh (requestWithAuthorization "Bearer abc123")
      rfl (by decide) (by decide) (by decide)]
    decide
  · exact stacked_defaultAuthMiddleware_idempotent.2.2.2.2.2 (withAuthCallback sampleCallback)
      okHandler ResponseWriter.fresh (requestWithAuthorization "Basic xyz")
      (by rintro ⟨fn, -, hscheme, -⟩; exact absurd hscheme (by decide))

end apicontroller
